import Mathlib

/-!
Verification development for the maclbapp server core.

Shallow embedding of the server-side services:
* `geolocation.ts` — IP lookup short-circuit and the suspicious-travel rule;
* `billing.service.ts` — cycle-end arithmetic (JavaScript `Date` month math),
  payment recording, billing-status projection, and the expiration sweeper;
* `auth.service.ts` / `sessionActivity.service.ts` — the login pipeline,
  token refresh, session invalidation and admin force-logout over an explicit
  database state.

Database tables are lists of records; each Prisma call is translated to the
corresponding pure list operation, in the order the source awaits them.
-/

namespace Maclb

/-! ## Geolocation utilities (`src/Server/src/utils/geolocation.ts`) -/

/-- Result record of `getLocationFromIP` (interface `LocationData`).
Coordinates are rationals (the claims do no floating-point arithmetic on them). -/
structure LocationData where
  city : Option String
  region : Option String
  country : Option String
  latitude : Option ℚ
  longitude : Option ℚ
  location : Option String
deriving DecidableEq

/-- The synthetic result returned for localhost / private addresses
(geolocation.ts lines 35-40). -/
def localNetworkResult : LocationData :=
  { city := some "Local", region := none, country := some "Local Network",
    latitude := none, longitude := none, location := some "Local Network" }

/-- Embedding of `String.prototype.startsWith`, computed on the character lists. -/
def strStartsWith (s front : String) : Bool :=
  front.data.isPrefixOf s.data

/-- The short-circuit condition of `getLocationFromIP` (lines 29-34):
`!ipAddress` (undefined or the empty string, both falsy in JavaScript),
`::1`, `127.0.0.1`, or a `192.168.` / `10.` / `172.` leading substring. -/
def isLocalIP (ipAddress : Option String) : Bool :=
  match ipAddress with
  | none => true
  | some s =>
      s = "" || s = "::1" || s = "127.0.0.1" ||
      strStartsWith s "192.168." || strStartsWith s "10." || strStartsWith s "172."

/-- Embedding of `getLocationFromIP` (lines 27-69).  The external `ip-api.com` call is an
oracle `lookup`: `.ok (some d)` is a `status:selected` reply carrying data,
`.ok none` a reply with non-success status (function logs and returns null),
`.error` a thrown error (caught; function returns null). -/
def getLocationFromIP (lookup : String → Except String (Option LocationData))
    (ipAddress : Option String) : Option LocationData :=
  if isLocalIP ipAddress then
    some localNetworkResult
  else
    match ipAddress with
    | none => none
    | some s =>
        match lookup s with
        | .ok r => r
        | .error _ => none

/-- Decision core of `isSuspiciousLocationChange` (lines 124-137), as a
function of the computed distance (km) and the time difference (minutes).
The source computes `distance` by the haversine formula in floating point;
the claims quantify over the distance itself, so the rule is embedded over ℚ. -/
def suspiciousTravelRule (distance timeDiffMinutes : ℚ) : Bool :=
  if 500 < distance ∧ timeDiffMinutes < 60 then
    true
  else if 2000 < distance ∧ timeDiffMinutes < 180 then
    true
  else
    false

/-! ## Calendar arithmetic (`billing.service.ts`, JavaScript `Date` semantics) -/

/-- Billing cycle enum (Prisma `BillingCycle`). -/
inductive BillingCycle
  | DAILY
  | WEEKLY
  | MONTHLY
  | THREE_MONTHS
  | HALF_YEAR
  | YEARLY
deriving DecidableEq

/-- A civil date as JavaScript `Date` exposes it: `getFullYear`,
`getMonth` (0-based index), `getDate` (1-based day).  Time of day is carried
along unchanged by all the operations the claims mention, so it is omitted. -/
structure CivilDate where
  year : Int
  month : Nat
  day : Nat
deriving DecidableEq

/-- Gregorian leap-year rule, as JavaScript `Date` implements it. -/
def isLeapYear (y : Int) : Bool :=
  (y % 4 == 0 && y % 100 != 0) || y % 400 == 0

/-- Length of month `m` (0-based) in year `y`. -/
def daysInMonth (y : Int) (m : Nat) : Nat :=
  if m = 1 then (if isLeapYear y then 29 else 28)
  else if m = 3 || m = 5 || m = 8 || m = 10 then 30
  else 31

/-- JavaScript `Date` field normalization: a day count exceeding the month
length rolls over into the following months (`setMonth`/`setDate` semantics;
there is no clamping). -/
def rollDay (y : Int) (m : Nat) (d : Nat) : CivilDate :=
  if d ≤ daysInMonth y m then ⟨y, m, d⟩
  else if m = 11 then rollDay (y + 1) 0 (d - daysInMonth y m)
  else rollDay y (m + 1) (d - daysInMonth y m)
termination_by d
decreasing_by
  all_goals
    have h28 : 28 ≤ daysInMonth y m := by
      unfold daysInMonth
      split
      · split <;> omega
      · split <;> omega
    omega

/-- Embedding of `endDate.setMonth(endDate.getMonth() + k)`: month index arithmetic with
year carry, day kept and then normalized (rolling over, never clamped). -/
def addMonths (date : CivilDate) (k : Nat) : CivilDate :=
  rollDay (date.year + Int.ofNat ((date.month + k) / 12)) ((date.month + k) % 12) date.day

/-- Embedding of `endDate.setDate(endDate.getDate() + k)`. -/
def addDays (date : CivilDate) (k : Nat) : CivilDate :=
  rollDay date.year date.month (date.day + k)

/-- Embedding of `endDate.setFullYear(endDate.getFullYear() + k)`: month and day kept,
then normalized (Feb 29 in a non-leap target year becomes Mar 1). -/
def addYears (date : CivilDate) (k : Nat) : CivilDate :=
  rollDay (date.year + Int.ofNat k) date.month date.day

/-- Embedding of `calculateCycleEndDate` (billing.service.ts lines 9-36).  The `default`
branch of the source throws on an invalid cycle string; the enum is total
here, so that branch is unreachable. -/
def calculateCycleEndDate (startDate : CivilDate) (cycle : BillingCycle) : CivilDate :=
  match cycle with
  | .DAILY => addDays startDate 1
  | .WEEKLY => addDays startDate 7
  | .MONTHLY => addMonths startDate 1
  | .THREE_MONTHS => addMonths startDate 3
  | .HALF_YEAR => addMonths startDate 6
  | .YEARLY => addYears startDate 1

/-- Strict lexicographic order on civil dates (earlier-than). -/
def civilLt (a b : CivilDate) : Bool :=
  a.year < b.year ||
    (a.year = b.year && (a.month < b.month ||
      (a.month = b.month && a.day < b.day)))

/-- Non-strict order on civil dates. -/
def civilLe (a b : CivilDate) : Bool :=
  civilLt a b || a = b

/-- A date actually representable by a JavaScript `Date`: month index below
12 and a day within the month. -/
def CivilDate.Valid (d : CivilDate) : Prop :=
  d.month ≤ 11 ∧ 1 ≤ d.day ∧ d.day ≤ daysInMonth d.year d.month

instance (d : CivilDate) : Decidable d.Valid := by
  unfold CivilDate.Valid
  infer_instance

/-- Modelled from the spec: the spec's month arithmetic (§4.7.2) "must
preserve the day-of-month where possible and clamp to the last day of the
target month otherwise".  Used to compare the source's rollover arithmetic
against the spec's clamped arithmetic. -/
def clampedAddMonths (date : CivilDate) (k : Nat) : CivilDate :=
  ⟨date.year + Int.ofNat ((date.month + k) / 12), (date.month + k) % 12,
    min date.day
      (daysInMonth (date.year + Int.ofNat ((date.month + k) / 12)) ((date.month + k) % 12))⟩

/-- Modelled from the spec: cycle-end arithmetic with clamped month math
(§4.7.2; day- and week-based cycles are exact calendar addition). -/
def clampedCycleEnd (startDate : CivilDate) (cycle : BillingCycle) : CivilDate :=
  match cycle with
  | .DAILY => addDays startDate 1
  | .WEEKLY => addDays startDate 7
  | .MONTHLY => clampedAddMonths startDate 1
  | .THREE_MONTHS => clampedAddMonths startDate 3
  | .HALF_YEAR => clampedAddMonths startDate 6
  | .YEARLY =>
      ⟨startDate.year + 1, startDate.month,
        min startDate.day (daysInMonth (startDate.year + 1) startDate.month)⟩

/-! ## Billing state machine (`billing.service.ts`) -/

/-- Prisma `UserStatus` enum. -/
inductive UserStatus
  | ACTIVE
  | SUSPENDED
  | DISABLED
deriving DecidableEq

/-- The billing-relevant projection of a `User` row, for the billing service
operations. -/
structure BUser where
  id : Nat
  status : UserStatus
  billingCycle : Option BillingCycle
  billingCycleStartDate : Option CivilDate
  billingCycleEndDate : Option CivilDate
  isBillingActive : Bool
  isTrialActive : Bool
  trialStartDate : Option CivilDate
  trialEndDate : Option CivilDate
  lastBillingCheckAt : Option CivilDate
deriving DecidableEq

/-- Prisma `Payment` row (the fields the billing claims mention; the decimal
amount is carried as an integer number of currency units). -/
structure PaymentRow where
  userId : Nat
  amount : Int
  billingCycle : BillingCycle
  paymentDate : CivilDate
  cycleStartDate : CivilDate
  cycleEndDate : CivilDate
  memo : Option String
  createdBy : Option Nat
deriving DecidableEq

/-- Prisma `BillingHistory` action enum. -/
inductive BillingAction
  | CYCLE_STARTED
  | PAYMENT_ADDED
  | TRIAL_STARTED
  | AUTO_DISABLED
deriving DecidableEq

/-- Prisma `BillingHistory` row (`details.reason` and `details.expiredDate`
are the parts of the JSON blob the sweeper writes). -/
structure BillingHistoryRow where
  userId : Nat
  action : BillingAction
  reason : Option String
  expiredDate : Option CivilDate
deriving DecidableEq

/-- The billing-side database state. -/
structure BillingDB where
  users : List BUser
  payments : List PaymentRow
  billingHistory : List BillingHistoryRow
deriving DecidableEq

/-- Embedding of `prisma.user.update` on the billing tables: rewrite the rows whose `id`
matches. -/
def updateUserRows (users : List BUser) (userId : Nat) (f : BUser → BUser) : List BUser :=
  users.map (fun u => if u.id = userId then f u else u)

/-- Embedding of `addPayment` (billing.service.ts lines 88-151): compute the new cycle
start (the stored cycle end if it is still in the future, else now), derive
the cycle end, insert the `Payment` row, update the user's billing fields and
append a `PAYMENT_ADDED` history row.  Returns `none` when the user id does
not resolve (the source throws a 404 `AppError`). -/
def addPayment (db : BillingDB) (now : CivilDate) (userId : Nat)
    (cycle : BillingCycle) (amount : Int) (memo : Option String)
    (adminId : Option Nat) : Option (BillingDB × PaymentRow × BUser) :=
  match db.users.find? (fun u => u.id = userId) with
  | none => none
  | some user =>
      let paymentDate := now
      let cycleStart :=
        match user.billingCycleEndDate with
        | some e => if civilLt paymentDate e then e else paymentDate
        | none => paymentDate
      let cycleEnd := calculateCycleEndDate cycleStart cycle
      let payment : PaymentRow :=
        { userId := userId, amount := amount, billingCycle := cycle,
          paymentDate := paymentDate, cycleStartDate := cycleStart,
          cycleEndDate := cycleEnd, memo := memo, createdBy := adminId }
      let updatedUser : BUser :=
        { user with
            billingCycle := some cycle,
            billingCycleStartDate := some cycleStart,
            billingCycleEndDate := some cycleEnd,
            isBillingActive := true,
            isTrialActive := false,
            lastBillingCheckAt := some now }
      let histRow : BillingHistoryRow :=
        { userId := userId, action := .PAYMENT_ADDED, reason := none, expiredDate := none }
      some
        ({ users := updateUserRows db.users userId (fun u =>
              { u with
                  billingCycle := some cycle,
                  billingCycleStartDate := some cycleStart,
                  billingCycleEndDate := some cycleEnd,
                  isBillingActive := true,
                  isTrialActive := false,
                  lastBillingCheckAt := some now }),
           payments := db.payments ++ [payment],
           billingHistory := db.billingHistory ++ [histRow] },
         payment, updatedUser)

/-- Selection predicate of the sweeper's first query
(billing.service.ts lines 324-334): active billing, cycle end strictly before
now, status not DISABLED. -/
def expiredBillingPred (now : CivilDate) (u : BUser) : Bool :=
  u.isBillingActive &&
    (match u.billingCycleEndDate with
     | some e => civilLt e now
     | none => false) &&
    !(u.status = UserStatus.DISABLED)

/-- Selection predicate of the sweeper's second query (lines 337-347). -/
def expiredTrialPred (now : CivilDate) (u : BUser) : Bool :=
  u.isTrialActive &&
    (match u.trialEndDate with
     | some e => civilLt e now
     | none => false) &&
    !(u.status = UserStatus.DISABLED)

/-- The per-user update of the sweeper's billing loop (lines 350-358). -/
def disableBillingUser (now : CivilDate) (u : BUser) : BUser :=
  { u with status := .DISABLED, isBillingActive := false, lastBillingCheckAt := some now }

/-- The per-user update of the sweeper's trial loop (lines 375-383). -/
def disableTrialUser (now : CivilDate) (u : BUser) : BUser :=
  { u with status := .DISABLED, isTrialActive := false, lastBillingCheckAt := some now }

/-- One `for` loop of the sweeper: a single-row `prisma.user.update` for each
user of the selected snapshot, applied in order to the current table. -/
def applyDisableLoop (f : BUser → BUser) (users : List BUser)
    (selected : List BUser) : List BUser :=
  selected.foldl (fun us u => us.map (fun v => if v.id = u.id then f v else v)) users

/-- Embedding of `checkAndDisableExpiredAccounts` (billing.service.ts lines 316-403): both
`findMany` snapshots are taken before any update; then the billing loop runs
(update + `AUTO_DISABLED` history row per user), then the trial loop.
Returns the new state, the disabled count and the collected user ids. -/
def checkAndDisableExpiredAccounts (now : CivilDate) (db : BillingDB) :
    BillingDB × Nat × List Nat :=
  let expiredBillingUsers := db.users.filter (expiredBillingPred now)
  let expiredTrialUsers := db.users.filter (expiredTrialPred now)
  let usersAfterBilling := applyDisableLoop (disableBillingUser now) db.users expiredBillingUsers
  let usersAfterTrial := applyDisableLoop (disableTrialUser now) usersAfterBilling expiredTrialUsers
  let billingRows := expiredBillingUsers.map (fun u =>
    ({ userId := u.id, action := .AUTO_DISABLED,
       reason := some "Billing cycle expired",
       expiredDate := u.billingCycleEndDate } : BillingHistoryRow))
  let trialRows := expiredTrialUsers.map (fun u =>
    ({ userId := u.id, action := .AUTO_DISABLED,
       reason := some "Trial period expired",
       expiredDate := u.trialEndDate } : BillingHistoryRow))
  let expiredIds := expiredBillingUsers.map (fun u => u.id) ++ expiredTrialUsers.map (fun u => u.id)
  ({ users := usersAfterTrial,
     payments := db.payments,
     billingHistory := db.billingHistory ++ billingRows ++ trialRows },
   expiredIds.length, expiredIds)

/-! ## Auth & single-session engine (`auth.service.ts`,
`sessionActivity.service.ts`, `securityAlert.service.ts`,
`loginHistory.service.ts`)

Timestamps on this side are epoch milliseconds (`Int`); the calendar
structure of a timestamp plays no role in the login pipeline. -/

/-- Prisma `UserRole` enum. -/
inductive UserRole
  | SUPER_ADMIN
  | ADMIN
  | SUPPORT
  | USER
deriving DecidableEq

/-- Which signing secret a JWT was minted with. -/
inductive TokenKind
  | ACCESS
  | REFRESH
deriving DecidableEq

/-- A signed JWT: kind (secret), issued-at counter (what makes successive
mints distinct strings), subject and role claims.  Forgery is out of scope:
a value of this type stands for a token this server signed. -/
structure Token where
  kind : TokenKind
  iat : Nat
  sub : Nat
  role : UserRole
deriving DecidableEq

/-- The `AuthTokens` pair of `auth.service.ts`. -/
structure AuthTokens where
  accessToken : Token
  refreshToken : Token
deriving DecidableEq

/-- Embedding of `issueTokens` (auth.service.ts lines 180-185): both tokens carry the
subject and role; `iat` is the mint instant. -/
def issueTokens (iat : Nat) (userId : Nat) (role : UserRole) : AuthTokens :=
  { accessToken := { kind := .ACCESS, iat := iat, sub := userId, role := role },
    refreshToken := { kind := .REFRESH, iat := iat, sub := userId, role := role } }

/-- Embedding of `verifyRefreshToken`: accepts only tokens signed with the refresh secret
and yields the subject claim. -/
def verifyRefreshToken (t : Token) : Option Nat :=
  if t.kind = TokenKind.REFRESH then some t.sub else none

/-- bcrypt, abstracted: hashing is an injective tag and `comparePassword`
succeeds exactly on the hash's preimage. -/
def hashPassword (password : String) : String :=
  "bcrypt$" ++ password

/-- Embedding of `comparePassword(password, hash)`. -/
def comparePassword (password hash : String) : Bool :=
  hash = hashPassword password

/-- The auth-side projection of a `User` row. -/
structure UserRec where
  id : Nat
  email : String
  passwordHash : String
  role : UserRole
  status : UserStatus
  currentSessionToken : Option Token
  lastLoginAt : Option Int
  lastLoginIP : Option String
  isTrialActive : Bool
  trialEndDate : Option Int
  isBillingActive : Bool
  billingCycleEndDate : Option Int
deriving DecidableEq

/-- A `SessionActivity` row.  `deviceInfo` stores the fingerprint string the
source derives from the User-Agent; the claims never inspect its shape, so it
carries the raw User-Agent here. -/
structure SessionRow where
  rowId : Nat
  userId : Nat
  sessionToken : Token
  ipAddress : Option String
  userAgent : Option String
  macAddress : Option String
  location : Option String
  deviceInfo : Option String
  isActive : Bool
  loginAt : Int
  logoutAt : Option Int
  logoutReason : Option String
deriving DecidableEq

/-- A `LoginHistory` row (the resolved location columns are omitted: no claim
inspects them). -/
structure LoginHistoryRow where
  userId : Nat
  email : String
  ipAddress : Option String
  userAgent : Option String
  macAddress : Option String
  success : Bool
  failureReason : Option String
deriving DecidableEq

/-- Prisma `SecurityAlertType` values used by the alert service. -/
inductive SecurityAlertType
  | MULTIPLE_DEVICE_LOGIN
  | SUSPICIOUS_LOCATION
  | FAILED_LOGIN_ATTEMPT
deriving DecidableEq

/-- Prisma `SecurityAlertSeverity`. -/
inductive SecurityAlertSeverity
  | LOW
  | MEDIUM
  | HIGH
  | CRITICAL
deriving DecidableEq

/-- A `SecurityAlert` row. -/
structure AlertRow where
  userId : Option Nat
  alertType : SecurityAlertType
  severity : SecurityAlertSeverity
  message : String
deriving DecidableEq

/-- Severity rule of `createFailedLoginAlert` (securityAlert.service.ts):
`attemptCount >= 5 ? 'HIGH' : 'MEDIUM'`. -/
def failedLoginSeverity (attemptCount : Nat) : SecurityAlertSeverity :=
  if 5 ≤ attemptCount then .HIGH else .MEDIUM

/-- Embedding of `createFailedLoginAlert`: a system-scoped (`userId` null) alert. -/
def createFailedLoginAlert (email : String) (ipAddress : String)
    (location : Option String) (attemptCount : Nat) (_reason : String) : AlertRow :=
  { userId := none,
    alertType := .FAILED_LOGIN_ATTEMPT,
    severity := failedLoginSeverity attemptCount,
    message := toString attemptCount ++ " failed login attempt(s) for " ++ email ++
      " from " ++ ipAddress ++ " (" ++ location.getD "Unknown location" ++ ")" }

/-- Embedding of `createMultipleDeviceLoginAlert`: always severity MEDIUM. -/
def createMultipleDeviceLoginAlert (userId : Nat) (userEmail : String)
    (previousDevice previousIP : Option String) (_previousLocation : Option String)
    (_newDevice _newIP : String) (_newLocation : Option String) : AlertRow :=
  let previousInfo :=
    match previousDevice, previousIP with
    | some d, some ip => "Previous session on " ++ d ++ " (" ++ ip ++ ") was terminated."
    | _, _ => "No previous session found."
  { userId := some userId,
    alertType := .MULTIPLE_DEVICE_LOGIN,
    severity := .MEDIUM,
    message := userEmail ++ " logged in from a new device. " ++ previousInfo }

/-- The auth-side database state.  Lists hold the most recent row first
(inserts prepend), which realizes the `orderBy: loginAt desc` reads. -/
structure AuthDB where
  users : List UserRec
  sessions : List SessionRow
  loginHistory : List LoginHistoryRow
  alerts : List AlertRow
  nextIat : Nat
  nextRowId : Nat
deriving DecidableEq

/-- Optional request metadata passed into `login`. -/
structure LoginMeta where
  ipAddress : Option String
  userAgent : Option String
  macAddress : Option String
deriving DecidableEq

/-- Embedding of `prisma.user.update` by id on the auth tables. -/
def updateUser (users : List UserRec) (userId : Nat) (f : UserRec → UserRec) : List UserRec :=
  users.map (fun u => if u.id = userId then f u else u)

/-- Embedding of `getUserActiveSessions` (sessionActivity.service.ts lines 144-154):
the user's active rows, most recent login first. -/
def getUserActiveSessions (db : AuthDB) (userId : Nat) : List SessionRow :=
  db.sessions.filter (fun s => s.userId = userId && s.isActive)

/-- The `updateMany` of `invalidateSession` (lines 62-72): every active row
bearing the token becomes inactive with the given reason. -/
def invalidateSessionRows (sessions : List SessionRow) (sessionToken : Token)
    (logoutReason : String) (now : Int) : List SessionRow :=
  sessions.map (fun s =>
    if s.sessionToken = sessionToken && s.isActive then
      { s with isActive := false, logoutAt := some now, logoutReason := some logoutReason }
    else s)

/-- Embedding of `invalidateSession` (lines 58-75); the Bool is `updated.count > 0`. -/
def invalidateSession (db : AuthDB) (sessionToken : Token) (logoutReason : String)
    (now : Int) : AuthDB × Bool :=
  ({ db with sessions := invalidateSessionRows db.sessions sessionToken logoutReason now },
   db.sessions.any (fun s => s.sessionToken = sessionToken && s.isActive))

/-- Outcomes of the auth operations (`AppError` kinds). -/
inductive AuthError
  | invalidCredentials
  | invalidRefreshToken
  | internalFailure
  | sessionNotFound
deriving DecidableEq

/-- A failed `LoginHistory` row as the login pipeline writes it. -/
def failedLoginRow (userId : Nat) (email : String) (m : LoginMeta)
    (reason : String) : LoginHistoryRow :=
  { userId := userId, email := email, ipAddress := m.ipAddress,
    userAgent := m.userAgent, macAddress := m.macAddress,
    success := false, failureReason := some reason }

/-- Embedding of `login` (auth.service.ts lines 41-178), with each awaited Prisma call in
source order.  `lookup` is the geolocation oracle.  `alertWriteOk` injects
the fallibility of the multiple-device-alert insert (the one awaited write
sitting between the session invalidation and the state commit): when false,
that insert rejects and the pipeline terminates with an error there, keeping
every effect already performed (the source wraps nothing in a transaction). -/
def login (db : AuthDB) (now : Int)
    (lookup : String → Except String (Option LocationData))
    (alertWriteOk : Bool) (email password : String)
    (metadata : Option LoginMeta) :
    AuthDB × Except AuthError (UserRec × AuthTokens) :=
  match db.users.find? (fun u => u.email = email) with
  | none =>
      -- user missing: no history row (would violate the FK), no writes
      (db, .error .invalidCredentials)
  | some user =>
      if user.status = UserStatus.ACTIVE then
        if comparePassword password user.passwordHash then
          -- single session enforcement
          let existingSessions := getUserActiveSessions db user.id
          let afterInvalidate :=
            if existingSessions.isEmpty then db
            else
              let db1 := { db with
                sessions := existingSessions.foldl
                  (fun (ss : List SessionRow) (s : SessionRow) =>
                    invalidateSessionRows ss s.sessionToken "new_login" now)
                  db.sessions }
              { db1 with
                users := updateUser db1.users user.id
                  (fun u => { u with currentSessionToken := none }) }
          let alertStage : Option AuthDB :=
            if existingSessions.isEmpty then some afterInvalidate
            else
              match metadata with
              | none => some afterInvalidate
              | some m =>
                  if alertWriteOk then
                    let oldSession := existingSessions.head?
                    let previousDevice :=
                      some ((oldSession.bind (fun s => s.deviceInfo)).getD "Unknown Device")
                    let previousIP :=
                      some ((oldSession.bind (fun s => s.ipAddress)).getD "Unknown IP")
                    let previousLocation := oldSession.bind (fun s => s.location)
                    let newLocation := getLocationFromIP lookup m.ipAddress
                    let row := createMultipleDeviceLoginAlert user.id user.email
                      previousDevice previousIP previousLocation
                      (m.userAgent.getD "") (m.ipAddress.getD "Unknown")
                      (newLocation.bind (fun l => l.location))
                    some { afterInvalidate with alerts := row :: afterInvalidate.alerts }
                  else none
          match alertStage with
          | none => (afterInvalidate, .error .internalFailure)
          | some db2 =>
              let tokens := issueTokens db2.nextIat user.id user.role
              let db3 := { db2 with nextIat := db2.nextIat + 1 }
              let db4 := { db3 with
                users := updateUser db3.users user.id (fun u =>
                  { u with
                      lastLoginAt := some now,
                      lastLoginIP := metadata.bind (fun m => m.ipAddress),
                      currentSessionToken := some tokens.accessToken }) }
              match metadata with
              | none => (db4, .ok (user, tokens))
              | some m =>
                  let successRow : LoginHistoryRow :=
                    { userId := user.id, email := user.email,
                      ipAddress := m.ipAddress, userAgent := m.userAgent,
                      macAddress := m.macAddress, success := true, failureReason := none }
                  let db5 := { db4 with loginHistory := successRow :: db4.loginHistory }
                  let locationData :=
                    match m.ipAddress with
                    | some ip => getLocationFromIP lookup (some ip)
                    | none => none
                  let newSession : SessionRow :=
                    { rowId := db5.nextRowId, userId := user.id,
                      sessionToken := tokens.accessToken,
                      ipAddress := m.ipAddress, userAgent := m.userAgent,
                      macAddress := m.macAddress,
                      location := locationData.bind (fun l => l.location),
                      deviceInfo := m.userAgent,
                      isActive := true, loginAt := now,
                      logoutAt := none, logoutReason := none }
                  let db6 := { db5 with
                    sessions := newSession :: db5.sessions,
                    nextRowId := db5.nextRowId + 1 }
                  (db6, .ok (user, tokens))
        else
          -- password mismatch against an active account
          match metadata with
          | some m =>
              let failRow := failedLoginRow user.id email m "Incorrect password"
              ({ db with loginHistory := failRow :: db.loginHistory },
               .error .invalidCredentials)
          | none => (db, .error .invalidCredentials)
      else
        -- account exists but is not active
        match metadata with
        | some m =>
            let failRow := failedLoginRow user.id email m "Invalid credentials or inactive account"
            let db1 := { db with loginHistory := failRow :: db.loginHistory }
            let location := getLocationFromIP lookup m.ipAddress
            let row := createFailedLoginAlert email (m.ipAddress.getD "Unknown")
              (location.bind (fun l => l.location)) 1
              "Invalid credentials or inactive account"
            ({ db1 with alerts := row :: db1.alerts }, .error .invalidCredentials)
        | none => (db, .error .invalidCredentials)

/-- Embedding of `refreshTokens` (auth.service.ts lines 187-209): verify the refresh
token, require an active user, mint fresh tokens and update only
`currentSessionToken` (no `SessionActivity` write).  The surrounding
try/catch turns every failure into the same 401. -/
def refreshTokens (db : AuthDB) (refreshToken : Token) :
    AuthDB × Except AuthError AuthTokens :=
  match verifyRefreshToken refreshToken with
  | none => (db, .error .invalidRefreshToken)
  | some sub =>
      match db.users.find? (fun u => u.id = sub) with
      | none => (db, .error .invalidRefreshToken)
      | some user =>
          if user.status = UserStatus.ACTIVE then
            let tokens := issueTokens db.nextIat user.id user.role
            let db1 := { db with
              nextIat := db.nextIat + 1,
              users := updateUser db.users user.id (fun u =>
                { u with currentSessionToken := some tokens.accessToken }) }
            (db1, .ok tokens)
          else (db, .error .invalidRefreshToken)

/-- Embedding of `forceLogout` (sessionActivity.service.ts lines 172-210): look the row
up by primary key, invalidate every active row bearing its token with reason
`forced_by_admin`, and — only when the row was active — clear the owning
user's `currentSessionToken` via `updateMany` guarded on the token matching.
The admin id is accepted and, as in the source, unused. -/
def forceLogout (db : AuthDB) (sessionId : Nat) (_adminId : Nat) (now : Int) :
    AuthDB × Except AuthError Nat :=
  match db.sessions.find? (fun s => s.rowId = sessionId) with
  | none => (db, .error .sessionNotFound)
  | some session =>
      let db1 := (invalidateSession db session.sessionToken "forced_by_admin" now).1
      let db2 :=
        if session.isActive then
          { db1 with users := db1.users.map (fun u =>
              if u.id = session.userId && u.currentSessionToken = some session.sessionToken
              then { u with currentSessionToken := none }
              else u) }
        else db1
      (db2, .ok session.userId)

/-- The `isExpired` projection of `getUserBillingStatus`
(billing.service.ts lines 218-246): the trial branch takes precedence; an
end date strictly before `now` means expired; otherwise (active or no plan)
not expired. -/
def billingStatusIsExpired (u : UserRec) (now : Int) : Bool :=
  match u.isTrialActive, u.trialEndDate with
  | true, some tEnd => tEnd < now
  | _, _ =>
      match u.isBillingActive, u.billingCycleEndDate with
      | true, some bEnd => bEnd < now
      | _, _ => false

/-! ## Claim statements and concrete fixtures -/

/-- The later of two civil dates (the claim's `max`). -/
def laterDate (a b : CivilDate) : CivilDate :=
  if civilLt a b then b else a

/-- What the add-payment claim asserts about one `addPayment` call resolving
`user`: cycle start is the later of now and the stored cycle end, cycle end
is the computed end, at least the spec's clamped end, the payment row with
these dates is appended, and the user ends billing-active and not on trial. -/
def AddPaymentClaim (db : BillingDB) (now : CivilDate) (userId : Nat)
    (cycle : BillingCycle) (amount : Int) (memo : Option String)
    (adminId : Option Nat) (user : BUser) : Prop :=
  ∃ db2 payment user2,
    addPayment db now userId cycle amount memo adminId = some (db2, payment, user2) ∧
    payment.cycleStartDate = laterDate now (user.billingCycleEndDate.getD now) ∧
    payment.cycleEndDate = calculateCycleEndDate payment.cycleStartDate cycle ∧
    civilLe (clampedCycleEnd payment.cycleStartDate cycle) payment.cycleEndDate = true ∧
    db2.payments = db.payments ++ [payment] ∧
    user2.isBillingActive = true ∧
    user2.isTrialActive = false ∧
    user2.billingCycleEndDate = some payment.cycleEndDate ∧
    user2 ∈ db2.users

/-- What the corrected login-failure claim asserts: a login failing
validation (unknown email, inactive account, or wrong password) terminates
with an error, and the `User` and `SessionActivity` tables — in particular
every `currentSessionToken` and the set of active rows — are exactly as
before the call. -/
def ValidationFrameClaim (db : AuthDB) (now : Int)
    (lookup : String → Except String (Option LocationData))
    (alertWriteOk : Bool) (email password : String)
    (metadata : Option LoginMeta) : Prop :=
  (login db now lookup alertWriteOk email password metadata).1.users = db.users ∧
  (login db now lookup alertWriteOk email password metadata).1.sessions = db.sessions ∧
  (login db now lookup alertWriteOk email password metadata).2 =
    .error AuthError.invalidCredentials

/-- What the corrected wrong-password claim asserts: a password mismatch
against an existing active account (with metadata) appends exactly the
failed history row with reason `Incorrect password`, emits no security
alert, touches neither users nor sessions, and fails with the generic
credentials error; the alert helper's escalation rule (MEDIUM below five
attempts, HIGH at five or more) exists but is not invoked on this path. -/
def WrongPasswordClaim (db : AuthDB) (now : Int)
    (lookup : String → Except String (Option LocationData))
    (alertWriteOk : Bool) (email password : String)
    (m : LoginMeta) (user : UserRec) : Prop :=
  (login db now lookup alertWriteOk email password (some m)).1.loginHistory =
    failedLoginRow user.id email m "Incorrect password" :: db.loginHistory ∧
  (login db now lookup alertWriteOk email password (some m)).1.alerts = db.alerts ∧
  (login db now lookup alertWriteOk email password (some m)).1.users = db.users ∧
  (login db now lookup alertWriteOk email password (some m)).1.sessions = db.sessions ∧
  (login db now lookup alertWriteOk email password (some m)).2 =
    .error AuthError.invalidCredentials ∧
  (∀ n, failedLoginSeverity n =
    if 5 ≤ n then SecurityAlertSeverity.HIGH else SecurityAlertSeverity.MEDIUM)

/-- What the amended geolocation claim asserts: any address passing the
local/private test (undefined, empty, loopback, or a `192.168.`/`10.`/`172.`
leading substring — including public `172.x` space) yields the synthetic
Local Network record with no dependence on the lookup; any other address
yields exactly the lookup's data on success and null on a failed or thrown
lookup. -/
def ShortCircuitClaim (lookup : String → Except String (Option LocationData))
    (ip : Option String) : Prop :=
  (isLocalIP ip = true → getLocationFromIP lookup ip = some localNetworkResult) ∧
  (isLocalIP ip = false →
    ∃ s, ip = some s ∧
      ((∃ msg, lookup s = .error msg ∧ getLocationFromIP lookup ip = none) ∨
       (lookup s = .ok none ∧ getLocationFromIP lookup ip = none) ∨
       (∃ d, lookup s = .ok (some d) ∧ getLocationFromIP lookup ip = some d))) ∧
  isLocalIP (some "172.217.0.1") = true

/-- What the force-logout claim asserts for a call resolving `session`:
afterwards no row bearing that session's token is active; each row that was
active under that token is exactly the invalidated row with reason
`forced_by_admin`; rows under other tokens are untouched; a user whose
`currentSessionToken` differed from the token is untouched, and one whose
token matched (on the active row's owner) ends with it cleared and nothing
else changed. -/
def ForceLogoutClaim (db : AuthDB) (sessionId adminId : Nat) (now : Int)
    (session : SessionRow) : Prop :=
  ((forceLogout db sessionId adminId now).1.sessions.length = db.sessions.length ∧
   (forceLogout db sessionId adminId now).1.users.length = db.users.length) ∧
  (∀ s2 ∈ (forceLogout db sessionId adminId now).1.sessions,
    s2.sessionToken = session.sessionToken → s2.isActive = false) ∧
  (∀ i : Fin db.sessions.length,
    ((db.sessions.get i).sessionToken = session.sessionToken ∧
        (db.sessions.get i).isActive = true →
      ∀ j : Fin (forceLogout db sessionId adminId now).1.sessions.length,
        (j : Nat) = (i : Nat) →
          (forceLogout db sessionId adminId now).1.sessions.get j =
            { db.sessions.get i with
                isActive := false, logoutAt := some now,
                logoutReason := some "forced_by_admin" }) ∧
    ((db.sessions.get i).sessionToken ≠ session.sessionToken →
      ∀ j : Fin (forceLogout db sessionId adminId now).1.sessions.length,
        (j : Nat) = (i : Nat) →
          (forceLogout db sessionId adminId now).1.sessions.get j =
            db.sessions.get i)) ∧
  (∀ i : Fin db.users.length,
    ((db.users.get i).currentSessionToken ≠ some session.sessionToken →
      ∀ j : Fin (forceLogout db sessionId adminId now).1.users.length,
        (j : Nat) = (i : Nat) →
          (forceLogout db sessionId adminId now).1.users.get j = db.users.get i) ∧
    ((db.users.get i).currentSessionToken = some session.sessionToken ∧
        (db.users.get i).id = session.userId ∧ session.isActive = true →
      ∀ j : Fin (forceLogout db sessionId adminId now).1.users.length,
        (j : Nat) = (i : Nat) →
          (forceLogout db sessionId adminId now).1.users.get j =
            { db.users.get i with currentSessionToken := none }))

/-- Whether the sweeper's billing snapshot contains `v`'s id. -/
def sweepCondB (now : CivilDate) (db : BillingDB) (v : BUser) : Bool :=
  (db.users.filter (expiredBillingPred now)).any (fun u => u.id = v.id)

/-- Whether the sweeper's trial snapshot contains `v`'s id. -/
def sweepCondT (now : CivilDate) (db : BillingDB) (v : BUser) : Bool :=
  (db.users.filter (expiredTrialPred now)).any (fun u => u.id = v.id)

/-- The per-row effect of one whole sweep: the billing loop's conditional
update followed by the trial loop's. -/
def sweepImage (now : CivilDate) (db : BillingDB) (v : BUser) : BUser :=
  if sweepCondT now db (if sweepCondB now db v then disableBillingUser now v else v) then
    disableTrialUser now (if sweepCondB now db v then disableBillingUser now v else v)
  else
    (if sweepCondB now db v then disableBillingUser now v else v)

/-- A geolocation oracle whose lookups always fail softly. -/
def demoLookup : String → Except String (Option LocationData) :=
  fun _ => .ok none

/-- A marker record distinct from the Local Network result. -/
def markerLocation : LocationData :=
  { city := some "Mountain View", region := none, country := some "United States",
    latitude := none, longitude := none, location := some "Mountain View, United States" }

/-- An oracle that always returns the marker record. -/
def markerLookup : String → Except String (Option LocationData) :=
  fun _ => .ok (some markerLocation)

/-- Request metadata used by the concrete login traces. -/
def demoMeta : LoginMeta :=
  { ipAddress := some "8.8.8.8", userAgent := some "UA-1", macAddress := none }

/-- An active user whose paid cycle ended at instant 100. -/
def c1bob : UserRec :=
  { id := 0, email := "bob@x", passwordHash := hashPassword "pw12345678",
    role := .USER, status := .ACTIVE, currentSessionToken := none,
    lastLoginAt := none, lastLoginIP := none,
    isTrialActive := false, trialEndDate := none,
    isBillingActive := true, billingCycleEndDate := some 100 }

/-- Database holding only `c1bob`, no sessions. -/
def c1db : AuthDB :=
  { users := [c1bob], sessions := [], loginHistory := [], alerts := [],
    nextIat := 0, nextRowId := 0 }

/-- An active user with no session yet. -/
def c2alice : UserRec :=
  { id := 0, email := "alice@x", passwordHash := hashPassword "pw12345678",
    role := .USER, status := .ACTIVE, currentSessionToken := none,
    lastLoginAt := none, lastLoginIP := none,
    isTrialActive := false, trialEndDate := none,
    isBillingActive := false, billingCycleEndDate := none }

/-- Database holding only `c2alice`. -/
def c2db : AuthDB :=
  { users := [c2alice], sessions := [], loginHistory := [], alerts := [],
    nextIat := 0, nextRowId := 0 }

/-- The access token of `c3alice`'s existing session. -/
def c3oldToken : Token :=
  { kind := .ACCESS, iat := 41, sub := 0, role := .USER }

/-- An active user holding an active session under `c3oldToken`. -/
def c3alice : UserRec :=
  { id := 0, email := "carol@x", passwordHash := hashPassword "pw12345678",
    role := .USER, status := .ACTIVE, currentSessionToken := some c3oldToken,
    lastLoginAt := some 10, lastLoginIP := some "1.2.3.4",
    isTrialActive := false, trialEndDate := none,
    isBillingActive := false, billingCycleEndDate := none }

/-- The existing active `SessionActivity` row of `c3alice`. -/
def c3oldRow : SessionRow :=
  { rowId := 0, userId := 0, sessionToken := c3oldToken,
    ipAddress := some "1.2.3.4", userAgent := some "UA-0", macAddress := none,
    location := none, deviceInfo := some "UA-0",
    isActive := true, loginAt := 10, logoutAt := none, logoutReason := none }

/-- Database with `c3alice` and her one active session. -/
def c3db : AuthDB :=
  { users := [c3alice], sessions := [c3oldRow], loginHistory := [], alerts := [],
    nextIat := 42, nextRowId := 1 }

/-- An active user for the wrong-password trace. -/
def c4dave : UserRec :=
  { id := 3, email := "dave@x", passwordHash := hashPassword "pw12345678",
    role := .USER, status := .ACTIVE, currentSessionToken := none,
    lastLoginAt := none, lastLoginIP := none,
    isTrialActive := false, trialEndDate := none,
    isBillingActive := false, billingCycleEndDate := none }

/-- Database holding only `c4dave`, with no alerts recorded. -/
def c4db : AuthDB :=
  { users := [c4dave], sessions := [], loginHistory := [], alerts := [],
    nextIat := 0, nextRowId := 0 }

/-- A billed user whose cycle runs to 2025-01-15 (month index 0). -/
def c7user : BUser :=
  { id := 7, status := .ACTIVE, billingCycle := some .MONTHLY,
    billingCycleStartDate := some ⟨2024, 11, 15⟩,
    billingCycleEndDate := some ⟨2025, 0, 15⟩,
    isBillingActive := true, isTrialActive := false,
    trialStartDate := none, trialEndDate := none,
    lastBillingCheckAt := none }

/-- Billing database holding only `c7user`. -/
def c7db : BillingDB :=
  { users := [c7user], payments := [], billingHistory := [] }

/-- The access token of the session force-logout acts on. -/
def c10token : Token :=
  { kind := .ACCESS, iat := 5, sub := 5, role := .USER }

/-- A user whose `currentSessionToken` is `c10token`. -/
def c10erin : UserRec :=
  { id := 5, email := "erin@x", passwordHash := hashPassword "pw12345678",
    role := .USER, status := .ACTIVE, currentSessionToken := some c10token,
    lastLoginAt := some 20, lastLoginIP := some "9.9.9.9",
    isTrialActive := false, trialEndDate := none,
    isBillingActive := false, billingCycleEndDate := none }

/-- The active session row targeted by force-logout. -/
def c10row : SessionRow :=
  { rowId := 9, userId := 5, sessionToken := c10token,
    ipAddress := some "9.9.9.9", userAgent := some "UA-9", macAddress := none,
    location := none, deviceInfo := some "UA-9",
    isActive := true, loginAt := 20, logoutAt := none, logoutReason := none }

/-- Database with `c10erin` and her active session. -/
def c10db : AuthDB :=
  { users := [c10erin], sessions := [c10row], loginHistory := [], alerts := [],
    nextIat := 6, nextRowId := 10 }

/-- The login of `c1bob` with correct password after his cycle expired. -/
def c1result : AuthDB × Except AuthError (UserRec × AuthTokens) :=
  login c1db 200 demoLookup true "bob@x" "pw12345678" (some demoMeta)

/-- State after `c2alice` logs in. -/
def c2afterLogin : AuthDB :=
  (login c2db 50 demoLookup true "alice@x" "pw12345678" (some demoMeta)).1

/-- The refresh of the tokens that login handed `c2alice`. -/
def c2refresh : AuthDB × Except AuthError AuthTokens :=
  refreshTokens c2afterLogin (issueTokens 0 0 UserRole.USER).refreshToken

/-- Trace where `c3alice` logs in again with the correct password while the insert of
the multiple-device alert fails. -/
def c3result : AuthDB × Except AuthError (UserRec × AuthTokens) :=
  login c3db 100 demoLookup false "carol@x" "pw12345678" (some demoMeta)

/-- Trace where `c4dave` attempts a login with a wrong password. -/
def c4result : AuthDB × Except AuthError (UserRec × AuthTokens) :=
  login c4db 100 demoLookup true "dave@x" "wrong-password" (some demoMeta)

/-! ## Calendar lemmas -/

theorem daysInMonth_ge_28 (y : Int) (m : Nat) : 28 ≤ daysInMonth y m := by
  unfold daysInMonth
  split
  · split <;> omega
  · split <;> omega

theorem daysInMonth_le_31 (y : Int) (m : Nat) : daysInMonth y m ≤ 31 := by
  unfold daysInMonth
  split
  · split <;> omega
  · split <;> omega

theorem rollDay_of_le (y : Int) (m : Nat) (d : Nat) (h : d ≤ daysInMonth y m) :
    rollDay y m d = ⟨y, m, d⟩ := by
  unfold rollDay
  simp [h]

theorem rollDay_of_le_28 (y : Int) (m : Nat) (d : Nat) (h : d ≤ 28) :
    rollDay y m d = ⟨y, m, d⟩ :=
  rollDay_of_le y m d (le_trans h (daysInMonth_ge_28 y m))

theorem civilLe_of_eq {a b : CivilDate} (h : a = b) : civilLe a b = true := by
  simp [civilLe, h]

theorem civilLt_of_year {a b : CivilDate} (h : a.year < b.year) : civilLt a b = true := by
  simp [civilLt, h]

theorem civilLt_of_month {a b : CivilDate} (hy : a.year = b.year) (hm : a.month < b.month) :
    civilLt a b = true := by
  simp [civilLt, hy, hm]

theorem civilLe_of_lt {a b : CivilDate} (h : civilLt a b = true) : civilLe a b = true := by
  simp [civilLe, h]

theorem clamped_le_rollDay (y : Int) (m : Nat) (d : Nat) (hd : d ≤ 31) :
    civilLe ⟨y, m, min d (daysInMonth y m)⟩ (rollDay y m d) = true := by
  by_cases h : d ≤ daysInMonth y m
  · rw [rollDay_of_le y m d h]
    exact civilLe_of_eq (by simp [Nat.min_eq_left h])
  · have h28 := daysInMonth_ge_28 y m
    have hrest : d - daysInMonth y m ≤ 28 := by omega
    unfold rollDay
    rw [if_neg h]
    by_cases hm : m = 11
    · rw [if_pos hm, rollDay_of_le_28 _ _ _ hrest]
      exact civilLe_of_lt (civilLt_of_year (by simp))
    · rw [if_neg hm, rollDay_of_le_28 _ _ _ hrest]
      exact civilLe_of_lt (civilLt_of_month (by simp) (by simp))

theorem clampedCycleEnd_le (s : CivilDate) (c : BillingCycle) (hs : s.Valid) :
    civilLe (clampedCycleEnd s c) (calculateCycleEndDate s c) = true := by
  obtain ⟨hm, hd1, hd2⟩ := hs
  have hd31 : s.day ≤ 31 := le_trans hd2 (daysInMonth_le_31 s.year s.month)
  cases c
  case DAILY => exact civilLe_of_eq rfl
  case WEEKLY => exact civilLe_of_eq rfl
  case MONTHLY => exact clamped_le_rollDay _ _ _ hd31
  case THREE_MONTHS => exact clamped_le_rollDay _ _ _ hd31
  case HALF_YEAR => exact clamped_le_rollDay _ _ _ hd31
  case YEARLY => exact clamped_le_rollDay _ _ _ hd31

theorem laterDate_cases (a b : CivilDate) : laterDate a b = a ∨ laterDate a b = b := by
  unfold laterDate
  split
  · exact Or.inr rfl
  · exact Or.inl rfl

/-! ## Claim C5 -/

/-- C5 (counterexample): the suspicious-travel rule is claimed to fire at
exactly 500 km with under 60 minutes, but the source compares with strict
`>`, so distance 500 at 59 minutes satisfies the claimed condition and the
rule still answers false. -/
theorem suspiciousTravelRule_false_at_500_59 :
    (500 : ℚ) ≥ 500 ∧ (59 : ℚ) < 60 ∧ suspiciousTravelRule 500 59 = false := by
  refine ⟨by norm_num, by norm_num, ?_⟩
  decide

/-- C5 (amended): the rule answers true exactly when distance exceeds
500 km within under 60 minutes or exceeds 2000 km within under 180 minutes
(strict thresholds); in particular it is false at 500 km / 60 min and true
at 501 km / 59 min. -/
theorem suspiciousTravelRule_iff :
    (∀ distance timeDiffMinutes : ℚ,
      suspiciousTravelRule distance timeDiffMinutes = true ↔
        ((500 < distance ∧ timeDiffMinutes < 60) ∨
         (2000 < distance ∧ timeDiffMinutes < 180))) ∧
    suspiciousTravelRule 500 60 = false ∧
    suspiciousTravelRule 501 59 = true := by
  refine ⟨?_, by decide, by decide⟩
  intro d t
  unfold suspiciousTravelRule
  split_ifs with h1 h2
  · simpa using Or.inl h1
  · simpa using Or.inr h2
  · simp only [Bool.false_eq_true, false_iff]
    tauto

/-! ## Claim C6 -/

/-- C6 (code bug): `calculateCycleEndDate` uses JavaScript `setMonth`, which
does not clamp: one month after 2025-01-31 it lands on 2025-03-03 (month
index 2), rolling past February instead of clamping to 2025-02-28
(the spec-modelled `clampedCycleEnd`). -/
theorem calculateCycleEndDate_jan31_rollover :
    calculateCycleEndDate ⟨2025, 0, 31⟩ BillingCycle.MONTHLY = ⟨2025, 2, 3⟩ ∧
    (calculateCycleEndDate ⟨2025, 0, 31⟩ BillingCycle.MONTHLY).month ≠ 1 ∧
    clampedCycleEnd ⟨2025, 0, 31⟩ BillingCycle.MONTHLY = ⟨2025, 1, 28⟩ := by
  have h : calculateCycleEndDate ⟨2025, 0, 31⟩ BillingCycle.MONTHLY = ⟨2025, 2, 3⟩ := by
    simp [calculateCycleEndDate, addMonths, rollDay, daysInMonth, isLeapYear]
  refine ⟨h, ?_, by decide⟩
  rw [h]
  decide

/-! ## Claim C9 -/

/-- C9 (counterexample): the empty string is not among the inputs the claim
lists (it is not undefined, not a loopback literal, and no listed leading
substring matches), yet `getLocationFromIP` short-circuits it — being falsy
in JavaScript — to the synthetic Local Network record rather than returning
the lookup's data or null. -/
theorem getLocationFromIP_empty_string :
    getLocationFromIP markerLookup (some "") = some localNetworkResult ∧
    localNetworkResult ≠ markerLocation ∧
    getLocationFromIP markerLookup (some "") ≠ none ∧
    (some "" : Option String) ≠ none ∧
    "" ≠ "::1" ∧ "" ≠ "127.0.0.1" ∧
    strStartsWith "" "192.168." = false ∧
    strStartsWith "" "10." = false ∧
    strStartsWith "" "172." = false ∧
    markerLookup "" = Except.ok (some markerLocation) := by
  refine ⟨by decide, by decide, by decide, by decide, by decide, by decide,
    by decide, by decide, by decide, rfl⟩

/-- C9 (amended): every address passing the local/private test — undefined,
empty, `::1`, `127.0.0.1`, or starting with `192.168.`, `10.` or `172.`
(which includes public space such as 172.217.0.1) — yields the synthetic
Local Network record independently of the lookup; every other address yields
the lookup's data on success and null when the lookup fails or throws. -/
theorem getLocationFromIP_short_circuit
    (lookup : String → Except String (Option LocationData)) (ip : Option String) :
    ShortCircuitClaim lookup ip := by
  refine ⟨?_, ?_, by decide⟩
  · intro h
    simp [getLocationFromIP, h]
  · intro h
    cases ip with
    | none => simp [isLocalIP] at h
    | some s =>
        refine ⟨s, rfl, ?_⟩
        cases hl : lookup s with
        | error msg =>
            exact Or.inl ⟨msg, rfl, by simp [getLocationFromIP, h, hl]⟩
        | ok r =>
            cases r with
            | none => exact Or.inr (Or.inl ⟨rfl, by simp [getLocationFromIP, h, hl]⟩)
            | some d => exact Or.inr (Or.inr ⟨d, rfl, by simp [getLocationFromIP, h, hl]⟩)

/-- C9 witness: the short-circuit theorem applied to the public address
172.217.0.1 with a lookup that would have returned data. -/
theorem getLocationFromIP_short_circuit_witness :
    ShortCircuitClaim markerLookup (some "172.217.0.1") ∧
    getLocationFromIP markerLookup (some "172.217.0.1") = some localNetworkResult :=
  ⟨getLocationFromIP_short_circuit markerLookup (some "172.217.0.1"),
   (getLocationFromIP_short_circuit markerLookup (some "172.217.0.1")).1 (by decide)⟩

/-! ## Claim C7 -/

/-- C7: `addPayment` starts the new cycle at the later of now and the stored
cycle end (prepayments stack), ends it at the computed cycle end — which is
at least the spec's clamped `cycleStart + cycle` — inserts the `Payment` row
carrying exactly these dates, and leaves the user billing-active and not on
trial. -/
theorem addPayment_extends_cycle
    (db : BillingDB) (now : CivilDate) (userId : Nat) (cycle : BillingCycle)
    (amount : Int) (memo : Option String) (adminId : Option Nat) (user : BUser)
    (hfind : db.users.find? (fun u => u.id = userId) = some user)
    (hnow : now.Valid)
    (hend : ∀ e, user.billingCycleEndDate = some e → e.Valid) :
    AddPaymentClaim db now userId cycle amount memo adminId user := by
  have hmem : user ∈ db.users := List.mem_of_find?_eq_some hfind
  have hid : user.id = userId := by
    have := List.find?_some hfind
    simpa using this
  unfold AddPaymentClaim addPayment
  rw [hfind]
  simp only [Option.some.injEq]
  refine ⟨_, _, _, rfl, ?_, rfl, ?_, rfl, rfl, rfl, rfl, ?_⟩
  · -- the computed start is the max of now and the stored end
    cases h : user.billingCycleEndDate with
    | none => simp [laterDate]
    | some e => simp [laterDate]
  · -- code end is at least the spec's clamped end
    have hstart :
        (match user.billingCycleEndDate with
         | some e => if civilLt now e then e else now
         | none => now).Valid := by
      cases h : user.billingCycleEndDate with
      | none => exact hnow
      | some e =>
          by_cases hc : civilLt now e = true
          · simpa [hc] using hend e h
          · simp only [hc]
            simpa [hc] using hnow
    exact clampedCycleEnd_le _ cycle hstart
  · -- the updated user record is present in the updated table
    unfold updateUserRows
    refine List.mem_map.mpr ⟨user, hmem, ?_⟩
    simp [hid]

/-- C7 witness: a payment on 2025-01-10 for a user whose monthly cycle runs
to 2025-01-15 (all hypotheses discharged by evaluation). -/
theorem addPayment_extends_cycle_witness :
    (c7db.users.find? (fun u => u.id = 7) = some c7user) ∧
    CivilDate.Valid ⟨2025, 0, 10⟩ ∧
    AddPaymentClaim c7db ⟨2025, 0, 10⟩ 7 BillingCycle.MONTHLY 100 none none c7user :=
  ⟨by decide, by decide,
   addPayment_extends_cycle c7db ⟨2025, 0, 10⟩ 7 BillingCycle.MONTHLY 100 none none c7user
     (by decide) (by decide)
     (by
       intro e he
       simp only [c7user] at he
       cases he
       decide)⟩

/-! ## Claim C8 -/

theorem applyDisableLoop_eq_map (f : BUser → BUser)
    (hid : ∀ u, (f u).id = u.id) (hidem : ∀ u, f (f u) = f u) :
    ∀ (selected users : List BUser),
      applyDisableLoop f users selected =
        users.map (fun v => if selected.any (fun u => u.id = v.id) then f v else v) := by
  intro selected
  induction selected with
  | nil =>
      intro users
      simp [applyDisableLoop]
  | cons u sel ih =>
      intro users
      have hstep : applyDisableLoop f users (u :: sel) =
          applyDisableLoop f (users.map (fun v => if v.id = u.id then f v else v)) sel := rfl
      rw [hstep, ih, List.map_map]
      refine List.map_congr_left ?_
      intro v _
      by_cases h1 : v.id = u.id
      · have h2 : u.id = v.id := h1.symm
        have hin : (if v.id = u.id then f v else v) = f v := if_pos h1
        simp only [Function.comp_apply, hin, hid, hidem, List.any_cons, h2, ite_self]
        simp [hid, hidem]
      · have h2 : ¬ u.id = v.id := fun h => h1 h.symm
        have hin : (if v.id = u.id then f v else v) = v := if_neg h1
        simp only [Function.comp_apply, hin, List.any_cons]
        simp [h2]

theorem preds_false_of_disabled (now : CivilDate) (r : BUser)
    (hstat : r.status = UserStatus.DISABLED) :
    expiredBillingPred now r = false ∧ expiredTrialPred now r = false := by
  constructor
  · simp [expiredBillingPred, hstat]
  · simp [expiredTrialPred, hstat]

theorem sweepImage_cases (now : CivilDate) (db : BillingDB) (v : BUser) :
    (sweepImage now db v = v ∧
      sweepCondB now db v = false ∧ sweepCondT now db v = false) ∨
    (sweepImage now db v).status = UserStatus.DISABLED := by
  unfold sweepImage
  by_cases hb : sweepCondB now db v = true
  · rw [if_pos hb]
    right
    split
    · rfl
    · rfl
  · rw [if_neg hb]
    by_cases ht : sweepCondT now db v = true
    · rw [if_pos ht]
      right
      rfl
    · rw [if_neg ht]
      left
      exact ⟨rfl, by simpa using hb, by simpa using ht⟩

theorem sweepCondB_of_pred (now : CivilDate) (db : BillingDB) (v : BUser)
    (hv : v ∈ db.users) (hp : expiredBillingPred now v = true) :
    sweepCondB now db v = true :=
  List.any_eq_true.mpr ⟨v, List.mem_filter.mpr ⟨hv, hp⟩, by simp⟩

theorem sweepCondT_of_pred (now : CivilDate) (db : BillingDB) (v : BUser)
    (hv : v ∈ db.users) (hp : expiredTrialPred now v = true) :
    sweepCondT now db v = true :=
  List.any_eq_true.mpr ⟨v, List.mem_filter.mpr ⟨hv, hp⟩, by simp⟩

theorem sweep_users_eq_map (now : CivilDate) (db : BillingDB) :
    (checkAndDisableExpiredAccounts now db).1.users =
      db.users.map (sweepImage now db) := by
  show applyDisableLoop (disableTrialUser now)
      (applyDisableLoop (disableBillingUser now) db.users
        (db.users.filter (expiredBillingPred now)))
      (db.users.filter (expiredTrialPred now)) = _
  rw [applyDisableLoop_eq_map (disableBillingUser now) (fun u => rfl) (fun u => rfl),
    applyDisableLoop_eq_map (disableTrialUser now) (fun u => rfl) (fun u => rfl),
    List.map_map]
  rfl

theorem checkAndDisable_of_empty (now : CivilDate) (db : BillingDB)
    (hB : db.users.filter (expiredBillingPred now) = [])
    (hT : db.users.filter (expiredTrialPred now) = []) :
    checkAndDisableExpiredAccounts now db = (db, 0, []) := by
  unfold checkAndDisableExpiredAccounts
  rw [hB, hT]
  simp [applyDisableLoop]

/-- C8: running `checkAndDisableExpiredAccounts` a second time on the state
the first run produced disables nobody and appends nothing: the first run
left every user it selected with status DISABLED and the matching active
flag cleared, so both selection queries of the second run come back empty
and the second run is the identity with a zero report. -/
theorem checkAndDisable_idempotent (now : CivilDate) (db : BillingDB) :
    checkAndDisableExpiredAccounts now (checkAndDisableExpiredAccounts now db).1 =
      ((checkAndDisableExpiredAccounts now db).1, 0, []) := by
  have hkey : ∀ v2 ∈ (checkAndDisableExpiredAccounts now db).1.users,
      expiredBillingPred now v2 = false ∧ expiredTrialPred now v2 = false := by
    rw [sweep_users_eq_map]
    intro v2 hv2
    obtain ⟨v, hv, hv2eq⟩ := List.mem_map.mp hv2
    subst hv2eq
    rcases sweepImage_cases now db v with ⟨heq, hcb, hct⟩ | hdis
    · rw [heq]
      constructor
      · by_cases hp : expiredBillingPred now v = true
        · rw [sweepCondB_of_pred now db v hv hp] at hcb
          exact absurd hcb (by simp)
        · simpa using hp
      · by_cases hp : expiredTrialPred now v = true
        · rw [sweepCondT_of_pred now db v hv hp] at hct
          exact absurd hct (by simp)
        · simpa using hp
    · exact preds_false_of_disabled now _ hdis
  have hB2 : (checkAndDisableExpiredAccounts now db).1.users.filter
      (expiredBillingPred now) = [] := by
    rw [List.filter_eq_nil_iff]
    intro a ha
    simp [(hkey a ha).1]
  have hT2 : (checkAndDisableExpiredAccounts now db).1.users.filter
      (expiredTrialPred now) = [] := by
    rw [List.filter_eq_nil_iff]
    intro a ha
    simp [(hkey a ha).2]
  exact checkAndDisable_of_empty now _ hB2 hT2

/-! ## Claim C1 -/

/-- C1 (code bug): `c1bob` is active, types the right password, and his
billing-status projection says expired (cycle end 100 < now 200) — yet the
login pipeline, which never consults billing, succeeds: it mints tokens,
stores the access token in `currentSessionToken` and creates an active
`SessionActivity` row.  The claim (and the repository's own documentation)
says such a login is rejected with a billing-expired error and no state
change. -/
theorem billing_expired_login_not_rejected :
    billingStatusIsExpired c1bob 200 = true ∧
    c1result.2 = .ok (c1bob, issueTokens 0 0 UserRole.USER) ∧
    c1result.1.users.map (fun u => u.currentSessionToken) =
      [some (issueTokens 0 0 UserRole.USER).accessToken] ∧
    c1result.1.sessions.map (fun s => s.isActive) = [true] ∧
    c1result.1.sessions.map (fun s => s.sessionToken) =
      [(issueTokens 0 0 UserRole.USER).accessToken] := by
  refine ⟨by decide, rfl, by decide, by decide, by decide⟩

/-! ## Claim C2 -/

/-- C2 (code bug): after `c2alice` logs in and refreshes her tokens, the
unique active `SessionActivity` row still carries the login-time access
token while `currentSessionToken` holds the newly minted one — the refresh
path updates only the user row, so the invariant "a non-null
`currentSessionToken` equals the active row's `sessionToken`" breaks. -/
theorem refresh_desyncs_active_session_token :
    (login c2db 50 demoLookup true "alice@x" "pw12345678" (some demoMeta)).2 =
      .ok (c2alice, issueTokens 0 0 UserRole.USER) ∧
    c2refresh.2 = .ok (issueTokens 1 0 UserRole.USER) ∧
    (c2refresh.1.sessions.filter (fun s => s.isActive)).map (fun s => s.sessionToken) =
      [(issueTokens 0 0 UserRole.USER).accessToken] ∧
    c2refresh.1.users.map (fun u => u.currentSessionToken) =
      [some (issueTokens 1 0 UserRole.USER).accessToken] ∧
    (issueTokens 0 0 UserRole.USER).accessToken ≠
      (issueTokens 1 0 UserRole.USER).accessToken := by
  refine ⟨rfl, rfl, by decide, by decide, by decide⟩

/-! ## Claim C3 -/

/-- C3 (counterexample): with an existing active session and a failing
multiple-device-alert insert, the login terminates with an error even though
it already invalidated `c3alice`'s previous session and cleared her
`currentSessionToken` — the pipeline is not transactional, so this failed
login does not leave the session state as it was. -/
theorem failed_login_leaves_session_invalidated :
    c3result.2 = .error AuthError.internalFailure ∧
    c3db.sessions.map (fun s => s.isActive) = [true] ∧
    c3result.1.sessions.map (fun s => s.isActive) = [false] ∧
    c3db.users.map (fun u => u.currentSessionToken) = [some c3oldToken] ∧
    c3result.1.users.map (fun u => u.currentSessionToken) = [none] := by
  refine ⟨rfl, by decide, by decide, by decide, by decide⟩

/-- C3 (amended): a login that fails validation — unknown email, inactive
account, or wrong password — leaves the `User` and `SessionActivity` tables
untouched (these checks precede every session write); only an internal
failure between the session invalidation and the state commit can leave the
prior session invalidated. -/
theorem login_validation_failure_frame
    (db : AuthDB) (now : Int)
    (lookup : String → Except String (Option LocationData))
    (alertWriteOk : Bool) (email password : String) (metadata : Option LoginMeta)
    (hfail : db.users.find? (fun u => u.email = email) = none ∨
      ∃ user, db.users.find? (fun u => u.email = email) = some user ∧
        (user.status ≠ UserStatus.ACTIVE ∨
         comparePassword password user.passwordHash = false)) :
    ValidationFrameClaim db now lookup alertWriteOk email password metadata := by
  unfold ValidationFrameClaim login
  rcases hfail with hnone | ⟨user, hfind, hbad⟩
  · rw [hnone]
    exact ⟨rfl, rfl, rfl⟩
  · rw [hfind]
    simp only []
    rcases hbad with hstat | hpw
    · rw [if_neg hstat]
      cases metadata <;> exact ⟨rfl, rfl, rfl⟩
    · by_cases hstat : user.status = UserStatus.ACTIVE
      · rw [if_pos hstat,
          if_neg (by simp [hpw] : ¬ comparePassword password user.passwordHash = true)]
        cases metadata <;> exact ⟨rfl, rfl, rfl⟩
      · rw [if_neg hstat]
        cases metadata <;> exact ⟨rfl, rfl, rfl⟩

/-- C3 witness: a login against an unknown email, frame intact. -/
theorem login_validation_failure_frame_witness :
    (c3db.users.find? (fun u => u.email = "nobody@x") = none) ∧
    ValidationFrameClaim c3db 100 demoLookup true "nobody@x" "pw12345678" none :=
  ⟨by decide,
   login_validation_failure_frame c3db 100 demoLookup true "nobody@x" "pw12345678" none
     (Or.inl (by decide))⟩

/-! ## Claim C4 -/

/-- C4 (counterexample): `c4dave` exists, is active, and supplies a wrong
password with full metadata; the login records the failed history row but
emits no security alert at all — the failed-login alert the claim requires
is only ever created on the missing-or-inactive-account branch. -/
theorem wrong_password_emits_no_alert :
    c4result.2 = .error AuthError.invalidCredentials ∧
    c4dave.status = UserStatus.ACTIVE ∧
    comparePassword "wrong-password" c4dave.passwordHash = false ∧
    c4result.1.loginHistory = [failedLoginRow 3 "dave@x" demoMeta "Incorrect password"] ∧
    c4result.1.alerts = [] := by
  refine ⟨rfl, by decide, by decide, by decide, by decide⟩

/-- C4 (amended): on a password mismatch against an existing active account
the login appends exactly one failed `LoginHistory` row with reason
`Incorrect password`, emits no security alert, changes no user or session
row, and fails with the generic credentials error; the alert helper's
escalation rule (MEDIUM under five attempts, HIGH at five or more) is never
invoked on this path. -/
theorem login_wrong_password_no_alert
    (db : AuthDB) (now : Int)
    (lookup : String → Except String (Option LocationData))
    (alertWriteOk : Bool) (email password : String) (m : LoginMeta) (user : UserRec)
    (hfind : db.users.find? (fun u => u.email = email) = some user)
    (hactive : user.status = UserStatus.ACTIVE)
    (hpw : comparePassword password user.passwordHash = false) :
    WrongPasswordClaim db now lookup alertWriteOk email password m user := by
  unfold WrongPasswordClaim login
  rw [hfind]
  simp only []
  rw [if_pos hactive,
    if_neg (by simp [hpw] : ¬ comparePassword password user.passwordHash = true)]
  exact ⟨rfl, rfl, rfl, rfl, rfl, fun n => rfl⟩

/-- C4 witness: the amended statement applied to `c4dave`'s trace. -/
theorem login_wrong_password_no_alert_witness :
    (c4db.users.find? (fun u => u.email = "dave@x") = some c4dave) ∧
    WrongPasswordClaim c4db 100 demoLookup true "dave@x" "wrong-password" demoMeta c4dave :=
  ⟨by decide,
   login_wrong_password_no_alert c4db 100 demoLookup true "dave@x" "wrong-password"
     demoMeta c4dave (by decide) (by decide) (by decide)⟩

/-! ## Claim C10 -/

/-- C10: `forceLogout` on an existing row marks every active row under that
row's token inactive with reason `forced_by_admin`, leaves rows under other
tokens untouched, clears the owner's `currentSessionToken` exactly when it
matched the session's token (on an active row), and leaves any user whose
token did not match — for instance after a refresh rotated it — entirely
unchanged. -/
theorem forceLogout_frame
    (db : AuthDB) (sessionId adminId : Nat) (now : Int) (session : SessionRow)
    (hfind : db.sessions.find? (fun s => s.rowId = sessionId) = some session) :
    ForceLogoutClaim db sessionId adminId now session := by
  have hres1 : (forceLogout db sessionId adminId now).1.sessions =
      invalidateSessionRows db.sessions session.sessionToken "forced_by_admin" now := by
    unfold forceLogout invalidateSession
    rw [hfind]
    simp only []
    split
    · rfl
    · rfl
  have hresU_pos : session.isActive = true →
      (forceLogout db sessionId adminId now).1.users =
        db.users.map (fun u =>
          if u.id = session.userId && u.currentSessionToken = some session.sessionToken
          then { u with currentSessionToken := none } else u) := by
    intro hact
    unfold forceLogout invalidateSession
    rw [hfind]
    simp only []
    rw [if_pos hact]
  have hresU_neg : ¬ session.isActive = true →
      (forceLogout db sessionId adminId now).1.users = db.users := by
    intro hact
    unfold forceLogout invalidateSession
    rw [hfind]
    simp only []
    rw [if_neg hact]
  refine ⟨⟨?_, ?_⟩, ?_, ?_, ?_⟩
  · rw [hres1]
    simp [invalidateSessionRows]
  · by_cases hact : session.isActive = true
    · rw [hresU_pos hact]
      simp
    · rw [hresU_neg hact]
  · -- every surviving row under the token is inactive
    rw [hres1]
    intro s2 h2 htok
    unfold invalidateSessionRows at h2
    obtain ⟨s0, h0, heq⟩ := List.mem_map.mp h2
    subst heq
    by_cases hc : (s0.sessionToken = session.sessionToken && s0.isActive) = true
    · rw [if_pos hc]
    · rw [if_neg hc]
      rw [if_neg hc] at htok
      simp only [htok] at hc
      simpa using hc
  · -- sessions, pointwise
    intro i
    have hlen : (forceLogout db sessionId adminId now).1.sessions.length =
        db.sessions.length := by
      rw [hres1]; simp [invalidateSessionRows]
    constructor
    · rintro ⟨htok, hact0⟩ j hj
      have hj' : (j : Nat) < db.sessions.length := by
        have := j.2
        omega
      have hfin : (⟨(j : Nat), hj'⟩ : Fin db.sessions.length) = i := Fin.ext hj
      have hget : (forceLogout db sessionId adminId now).1.sessions.get j =
          (if (db.sessions.get i).sessionToken = session.sessionToken &&
              (db.sessions.get i).isActive then
            { db.sessions.get i with
                isActive := false, logoutAt := some now,
                logoutReason := some "forced_by_admin" }
          else db.sessions.get i) := by
        rw [← hfin]
        simp only [hres1, invalidateSessionRows, List.get_eq_getElem, List.getElem_map]
      rw [hget, if_pos (by
        simp only [List.get_eq_getElem] at htok hact0
        simp [htok, hact0])]
    · intro hne j hj
      have hj' : (j : Nat) < db.sessions.length := by
        have := j.2
        omega
      have hfin : (⟨(j : Nat), hj'⟩ : Fin db.sessions.length) = i := Fin.ext hj
      have hget : (forceLogout db sessionId adminId now).1.sessions.get j =
          (if (db.sessions.get i).sessionToken = session.sessionToken &&
              (db.sessions.get i).isActive then
            { db.sessions.get i with
                isActive := false, logoutAt := some now,
                logoutReason := some "forced_by_admin" }
          else db.sessions.get i) := by
        rw [← hfin]
        simp only [hres1, invalidateSessionRows, List.get_eq_getElem, List.getElem_map]
      rw [hget, if_neg (by
        simp only [List.get_eq_getElem] at hne
        simp [hne])]
  · -- users, pointwise
    intro i
    by_cases hact : session.isActive = true
    · have hlenU : (forceLogout db sessionId adminId now).1.users.length =
          db.users.length := by
        rw [hresU_pos hact]
        simp
      constructor
      · intro hne j hj
        have hj' : (j : Nat) < db.users.length := by
          have h2 := j.2
          omega
        have hfin : (⟨(j : Nat), hj'⟩ : Fin db.users.length) = i := Fin.ext hj
        have hget : (forceLogout db sessionId adminId now).1.users.get j =
            (if (db.users.get i).id = session.userId &&
                (db.users.get i).currentSessionToken = some session.sessionToken then
              { db.users.get i with currentSessionToken := none }
            else db.users.get i) := by
          rw [← hfin]
          simp only [hresU_pos hact, List.get_eq_getElem, List.getElem_map]
        rw [hget, if_neg (by
          simp only [List.get_eq_getElem] at hne
          simp [hne])]
      · rintro ⟨hcur, hid, _⟩ j hj
        have hj' : (j : Nat) < db.users.length := by
          have h2 := j.2
          omega
        have hfin : (⟨(j : Nat), hj'⟩ : Fin db.users.length) = i := Fin.ext hj
        have hget : (forceLogout db sessionId adminId now).1.users.get j =
            (if (db.users.get i).id = session.userId &&
                (db.users.get i).currentSessionToken = some session.sessionToken then
              { db.users.get i with currentSessionToken := none }
            else db.users.get i) := by
          rw [← hfin]
          simp only [hresU_pos hact, List.get_eq_getElem, List.getElem_map]
        rw [hget, if_pos (by
          simp only [List.get_eq_getElem] at hcur hid
          simp [hcur, hid])]
    · have hlenU : (forceLogout db sessionId adminId now).1.users.length =
          db.users.length := by
        rw [hresU_neg hact]
      constructor
      · intro hne j hj
        have hj' : (j : Nat) < db.users.length := by
          have h2 := j.2
          omega
        have hfin : (⟨(j : Nat), hj'⟩ : Fin db.users.length) = i := Fin.ext hj
        have hget : (forceLogout db sessionId adminId now).1.users.get j =
            db.users.get ⟨(j : Nat), hj'⟩ := by
          simp only [hresU_neg hact, List.get_eq_getElem]
        rw [hget, hfin]
      · rintro ⟨hcur, hid, hact2⟩
        exact absurd hact2 hact

/-- C10 witness: force-logout of `c10erin`'s active session. -/
theorem forceLogout_frame_witness :
    (c10db.sessions.find? (fun s => s.rowId = 9) = some c10row) ∧
    ForceLogoutClaim c10db 9 1 300 c10row :=
  ⟨by decide, forceLogout_frame c10db 9 1 300 c10row (by decide)⟩

end Maclb
